import Mathlib

/-!
Verification development for the Boost.Astronomy frame-conversion engine
(`conversion_graph.hpp`) and the spherical-equatorial representation setters
(`spherical_equatorial_representation.hpp`).

The engine's `convert` builds a fixed directed graph of 5 named frames and
8 matrix-labelled edges, resolves the source and destination names by a
linear scan over the vertices, runs a breadth-first search from the source
recording predecessors on tree edges, reconstructs the path by walking
predecessors backwards from the destination, and left-multiplies the input
column vector by each edge matrix along the path in source-to-destination
order.

The per-edge rotation-matrix builders (`ha_dec_horizon`, `ha_dec_ra_dec`,
`ra_dec_to_ecliptic`, `ecliptic_to_ra_dec`, `ra_dec_to_galactic`,
`galactic_to_ra_dec`) live in `utility.hpp`, which is outside the sources
being modelled; the engine treats them as opaque matrix-valued collaborators,
so the embedding parametrises `convert` by their outputs (a `Builders`
record).  Matrix arithmetic is modelled exactly over an arbitrary commutative
ring rather than over IEEE doubles.

Two behaviours of the C++ have no defined result and are modelled by
dedicated outcome values:
* the backward predecessor walk does not terminate when the destination was
  never reached by the BFS (the loop `p = predecessors[p]` sticks at a vertex
  whose recorded predecessor is itself); a fuel-instrumented walk returning
  `none` marks this, and `convert` surfaces it as `ConvError.walkDiverged`;
* the composition loop reads `G[boost::edge(a,b,G).first]` without checking
  that the edge exists; a failed edge lookup is marked by `none` and surfaces
  as `ConvError.invalidEdgeRead` (in the C++ this is an out-of-contract read,
  not a reported error).
-/

/-- A 2x2 matrix over `α`, the shape of matrix actually applied by the engine
to the 2-angle column vector. -/
structure Mat2 (α : Type) where
  a : α
  b : α
  c : α
  d : α
deriving DecidableEq

/-- `prod(M, v)` of uBLAS on a column vector: left-multiplication. -/
def Mat2.mulVec {α : Type} [Mul α] [Add α] (M : Mat2 α) (v : α × α) : α × α :=
  (M.a * v.1 + M.b * v.2, M.c * v.1 + M.d * v.2)

/-- Matrix product. -/
def Mat2.mul {α : Type} [Mul α] [Add α] (M N : Mat2 α) : Mat2 α :=
  ⟨M.a * N.a + M.b * N.c, M.a * N.b + M.b * N.d,
   M.c * N.a + M.d * N.c, M.c * N.b + M.d * N.d⟩

/-- Identity matrix. -/
def Mat2.one {α : Type} [Zero α] [One α] : Mat2 α := ⟨1, 0, 0, 1⟩

/-- Modelled from the spec: the six per-edge rotation-matrix builders are
defined in `utility.hpp`, which is not among the modelled sources; the spec
treats each as an opaque `buildMatrix(parameter) -> SquareMatrix` collaborator
(§4.1), so the engine is parametrised by the six matrices they return for the
call's angle parameters (observer latitude `phi`, sidereal time `st`,
obliquity).  Note the C++ builds the Horizon edge matrix with the same call
`ha_dec_horizon(phi)` in both directions, and likewise `ha_dec_ra_dec(st)`. -/
structure Builders (α : Type) where
  ha_dec_horizon : Mat2 α
  ha_dec_ra_dec : Mat2 α
  ra_dec_to_ecliptic : Mat2 α
  ecliptic_to_ra_dec : Mat2 α
  ra_dec_to_galactic : Mat2 α
  galactic_to_ra_dec : Mat2 α

/-- Which builder call supplies an edge's matrix (lines 82-89 of
`conversion_graph.hpp`). -/
inductive MatKind where
  | ha_dec_horizon
  | ha_dec_ra_dec
  | ra_dec_to_ecliptic
  | ecliptic_to_ra_dec
  | ra_dec_to_galactic
  | galactic_to_ra_dec
deriving DecidableEq

/-- The matrix a `Builders` record supplies for a given builder call. -/
def matOf {α : Type} (B : Builders α) : MatKind → Mat2 α
  | .ha_dec_horizon => B.ha_dec_horizon
  | .ha_dec_ra_dec => B.ha_dec_ra_dec
  | .ra_dec_to_ecliptic => B.ra_dec_to_ecliptic
  | .ecliptic_to_ra_dec => B.ecliptic_to_ra_dec
  | .ra_dec_to_galactic => B.ra_dec_to_galactic
  | .galactic_to_ra_dec => B.galactic_to_ra_dec

/-- The vertex names, in the order the C++ adds them (`vd0` .. `vd4`). -/
def frameNames : List String :=
  ["Horizon", "Equatorial_HA_Dec", "Equatorial_RA_Dec", "Ecliptic", "Galactic"]

/-- One directed edge of the catalog graph: endpoints by vertex index, the
`edge_label` string, and which builder call supplies `conv_matrix`. -/
structure EdgeEntry where
  src : Nat
  dst : Nat
  lab : String
  bld : MatKind
deriving DecidableEq

/-- The eight `add_edge` calls, in insertion order (lines 82-89). -/
def edgeEntries : List EdgeEntry :=
  [⟨1, 0, "Equatorial HA Dec to Horizon", .ha_dec_horizon⟩,
   ⟨0, 1, "Horizon to Equatorial HA Dec", .ha_dec_horizon⟩,
   ⟨1, 2, "Equatorial HA Dec to Equatorial RA Dec", .ha_dec_ra_dec⟩,
   ⟨2, 1, "Equatorial RA Dec to Equatorial HA Dec", .ha_dec_ra_dec⟩,
   ⟨2, 3, "Equatorial RA Dec to Ecliptic", .ra_dec_to_ecliptic⟩,
   ⟨3, 2, "Ecliptic to Equatorial RA Dec", .ecliptic_to_ra_dec⟩,
   ⟨2, 4, "Equatorial RA Dec to Galactic", .ra_dec_to_galactic⟩,
   ⟨4, 2, "Galactic to Equatorial RA Dec", .galactic_to_ra_dec⟩]

/-- `boost::edge(a, b, G)`: the first edge `a → b`, if one exists. -/
def findEdge (a b : Nat) : Option EdgeEntry :=
  edgeEntries.find? (fun e => e.src == a && e.dst == b)

/-- Whether a directed edge `a → b` is registered. -/
def hasEdge (a b : Nat) : Bool :=
  (findEdge a b).isSome

/-- The matrix registered for the directed edge `a → b`
(`G[boost::edge(a,b,G).first].conv_matrix`), when the edge exists. -/
def edgeMatrix {α : Type} (B : Builders α) (a b : Nat) : Option (Mat2 α) :=
  (findEdge a b).map (fun e => matOf B e.bld)

/-- Out-neighbours of `u` in out-edge insertion order, as a
`boost::adjacency_list` with `vecS` stores and BFS enumerates them. -/
def outNeighbors (u : Nat) : List Nat :=
  (edgeEntries.filter (fun e => e.src == u)).map (fun e => e.dst)

/-- The linear scan of lines 98-118: walk the vertex list in order, return
the index of the first vertex whose `coordinate_name` equals `s`. -/
def scanVertex (s : String) : List String → Nat → Option Nat
  | [], _ => none
  | n :: rest, i => if n == s then some i else scanVertex s rest (i + 1)

/-- Resolve a frame name to its vertex index, as `convert` does for both
`src` and `dest`. -/
def findVertex (s : String) : Option Nat :=
  scanVertex s frameNames 0

/-- State of the breadth-first search: FIFO queue, set of discovered
(non-white) vertices, predecessor array. -/
structure BfsState where
  queue : List Nat
  disc : List Nat
  preds : List Nat

/-- Examine one out-edge `u → w`: if `w` is still white it is a tree edge, so
record `predecessors[w] = u` (the `record_predecessors` visitor on
`on_tree_edge`), colour `w` and enqueue it. -/
def bfsExamine (u : Nat) (st : BfsState) (w : Nat) : BfsState :=
  if st.disc.contains w then st
  else ⟨st.queue ++ [w], w :: st.disc, st.preds.set w u⟩

/-- Run the BFS loop: dequeue a vertex, examine its out-edges in order.
The fuel only bounds the number of dequeues; 16 is ample for 5 vertices,
each enqueued at most once. -/
def bfsRun : Nat → BfsState → List Nat
  | 0, st => st.preds
  | _ + 1, ⟨[], _, preds⟩ => preds
  | fuel + 1, ⟨u :: qs, d, preds⟩ =>
      bfsRun fuel ((outNeighbors u).foldl (bfsExamine u) ⟨qs, d, preds⟩)

/-- The predecessor array produced by `boost::breadth_first_search` from
`src`: the array starts as `{0}` (all zeros) with `predecessors[src] = src`
(lines 122-128). -/
def bfsPred (src : Nat) : List Nat :=
  bfsRun 16 ⟨[src], [src], (List.replicate 5 0).set src src⟩

/-- The backward walk of lines 133-139: starting at the destination, push the
current vertex and step to its recorded predecessor until the source is
reached, producing `store_path = [dest, ..., src]`.  The C++ loop is
unguarded; the fuel models its potential non-termination: `none` means the
loop has not reached the source within `fuel` steps. -/
def buildStorePath (preds : List Nat) (src : Nat) : Nat → Nat → Option (List Nat)
  | 0, _ => none
  | fuel + 1, p =>
      if p = src then some [p]
      else (buildStorePath preds src fuel (preds.getD p 0)).map (fun r => p :: r)

/-- The path discovered by `convert` in source-to-destination order
(the composition loop iterates `store_path` through reverse iterators). -/
def discoveredPath (s d : Nat) : Option (List Nat) :=
  (buildStorePath (bfsPred s) s 16 d).map List.reverse

/-- Consecutive pairs `(a, b)` of a vertex sequence, exactly the pairs
`(*it, *(it+1))` enumerated by the composition loop of lines 144-149. -/
def pathPairs : List Nat → List (Nat × Nat)
  | a :: b :: rest => (a, b) :: pathPairs (b :: rest)
  | _ => []

/-- The composition loop: for each consecutive pair `(a, b)` of the
source-to-destination path, `ans = prod(G[edge(a,b,G)].conv_matrix, ans)`.
A failed edge lookup yields `none`, marking the out-of-contract read the
unguarded C++ would perform. -/
def composeAlongPath {α : Type} [Mul α] [Add α]
    (B : Builders α) (path : List Nat) (v : α × α) : Option (α × α) :=
  (pathPairs path).foldl
    (fun acc ab => acc.bind (fun w => (edgeMatrix B ab.1 ab.2).map (fun M => M.mulVec w)))
    (some v)

/-- Outcomes of `convert` other than a result vector.  `notFound` is the
`std::range_error("Not found " + name)` thrown for an unregistered name;
`walkDiverged` and `invalidEdgeRead` mark the two undefined behaviours of the
C++ (see the file header): neither is a reported error in the source. -/
inductive ConvError where
  | notFound (msg : String)
  | walkDiverged
  | invalidEdgeRead
deriving DecidableEq

/-- The conversion engine (lines 60-152).  The input column vector built from
the source coordinate's two angle components is taken directly as `v`; the
matrices the builders return for the call's angle parameters are supplied by
`B`.  Source resolution happens before destination resolution, then BFS, the
backward walk, and the composition fold over the reversed `store_path`. -/
def convert {α : Type} [Mul α] [Add α]
    (B : Builders α) (src dest : String) (v : α × α) : Except ConvError (α × α) :=
  match findVertex src with
  | none => .error (.notFound ("Not found " ++ src))
  | some s =>
    match findVertex dest with
    | none => .error (.notFound ("Not found " ++ dest))
    | some d =>
      match buildStorePath (bfsPred s) s 16 d with
      | none => .error .walkDiverged
      | some sp =>
        match composeAlongPath B sp.reverse v with
        | none => .error .invalidEdgeRead
        | some w => .ok w

/-- `true` when a walk of exactly `n` edges leads from `u` to `v` in the
catalog graph. -/
def reachInB : Nat → Nat → Nat → Bool
  | 0, u, v => u == v
  | n + 1, u, v => (outNeighbors u).any (fun w => reachInB n w v)

/-- Number of distinct walks of exactly `n` edges from `u` to `v`. -/
def countWalks : Nat → Nat → Nat → Nat
  | 0, u, v => if u == v then 1 else 0
  | n + 1, u, v => ((outNeighbors u).map (fun w => countWalks n w v)).sum

/-- A vertex sequence all of whose consecutive pairs are registered edges. -/
def isPathB (p : List Nat) : Bool :=
  (pathPairs p).all (fun ab => hasEdge ab.1 ab.2)

/-- The point stored by a `spherical_equatorial_representation`: three raw
`CoordinateType` components, index 0 holding the latitude, index 1 the
longitude, index 2 the distance. -/
structure Rep3 (α : Type) where
  p0 : α
  p1 : α
  p2 : α
deriving DecidableEq

/-- `set_lat` (lines 213-220): `bg::set<0>(point, static_cast<..>(lat).value())`.
The numeric effect of the `static_cast` chain (a unit conversion on the
quantity's value) is the parameter `latCast`. -/
def set_lat {α : Type} (latCast : α → α) (r : Rep3 α) (lat : α) : Rep3 α :=
  { r with p0 := latCast lat }

/-- `set_lon` (lines 223-230): `bg::set<1>` of the cast longitude value. -/
def set_lon {α : Type} (lonCast : α → α) (r : Rep3 α) (lon : α) : Rep3 α :=
  { r with p1 := lonCast lon }

/-- `set_dist` (lines 233-236): `bg::set<2>(point, distance.value())`, no cast. -/
def set_dist {α : Type} (r : Rep3 α) (dist : α) : Rep3 α :=
  { r with p2 := dist }

/-- `get_lat` (lines 174-181): read raw component 0 and convert it back into
the representation's latitude quantity type (`latBack`). -/
def get_lat {α : Type} (latBack : α → α) (r : Rep3 α) : α :=
  latBack r.p0

/-- `get_lon` (lines 184-191). -/
def get_lon {α : Type} (lonBack : α → α) (r : Rep3 α) : α :=
  lonBack r.p1

/-- `get_dist` (lines 194-197): `DistQuantity::from_value(bg::get<2>(point))`. -/
def get_dist {α : Type} (r : Rep3 α) : α :=
  r.p2

/-- A concrete builder record over `ℤ` used to instantiate the engine at
concrete inputs: the Horizon edge matrix is the swap involution, the others
are arbitrary distinct matrices. -/
def intBuilders : Builders ℤ :=
  ⟨⟨0, 1, 1, 0⟩, ⟨1, 0, 0, 1⟩, ⟨1, 2, 3, 4⟩, ⟨4, 3, 2, 1⟩, ⟨2, 0, 0, 2⟩, ⟨0, 2, 2, 0⟩⟩

/-- Name resolution only ever produces one of the five vertex indices. -/
theorem findVertex_lt {s : String} {i : Nat} (h : findVertex s = some i) : i < 5 := by
  simp only [findVertex, frameNames, scanVertex] at h
  split_ifs at h <;> simp_all <;> omega

/-- Matrix product acts on vectors as composition of the two actions. -/
theorem Mat2.mul_mulVec {α : Type} [CommRing α] (M N : Mat2 α) (v : α × α) :
    (M.mul N).mulVec v = M.mulVec (N.mulVec v) := by
  cases v
  simp only [Mat2.mul, Mat2.mulVec, Prod.mk.injEq]
  constructor <;> ring

/-- The identity matrix fixes every vector. -/
theorem Mat2.one_mulVec {α : Type} [CommRing α] (v : α × α) :
    (Mat2.one).mulVec v = v := by
  cases v
  simp [Mat2.one, Mat2.mulVec]

/-- C8: every call to `convert` builds a catalog graph with exactly the 5
vertices Horizon, Equatorial_HA_Dec, Equatorial_RA_Dec, Ecliptic and Galactic
and exactly 8 directed edges — the 4 direct relationships each registered in
both directions — and there is no direct edge between Ecliptic and Galactic
nor between Horizon and either Ecliptic or Galactic. -/
theorem catalog_shape :
    frameNames = ["Horizon", "Equatorial_HA_Dec", "Equatorial_RA_Dec",
      "Ecliptic", "Galactic"] ∧
    frameNames.length = 5 ∧
    edgeEntries.length = 8 ∧
    edgeEntries.map (fun e => (e.src, e.dst)) =
      [(1, 0), (0, 1), (1, 2), (2, 1), (2, 3), (3, 2), (2, 4), (4, 2)] ∧
    hasEdge 3 4 = false ∧ hasEdge 4 3 = false ∧
    hasEdge 0 3 = false ∧ hasEdge 3 0 = false ∧
    hasEdge 0 4 = false ∧ hasEdge 4 0 = false := by
  decide

/-- C10: on `spherical_equatorial_representation`, each setter modifies only
its own component: `set_lat` stores (the cast of) its argument in the
latitude slot and leaves the longitude and distance slots — hence `get_lon`
and `get_dist` — unchanged, and symmetrically for `set_lon` and `set_dist`. -/
theorem setters_modify_only_own_component {α : Type}
    (latCast lonCast latBack lonBack : α → α) (r : Rep3 α) (x : α) :
    ((set_lat latCast r x).p0 = latCast x ∧
     (set_lat latCast r x).p1 = r.p1 ∧ (set_lat latCast r x).p2 = r.p2 ∧
     get_lon lonBack (set_lat latCast r x) = get_lon lonBack r ∧
     get_dist (set_lat latCast r x) = get_dist r) ∧
    ((set_lon lonCast r x).p1 = lonCast x ∧
     (set_lon lonCast r x).p0 = r.p0 ∧ (set_lon lonCast r x).p2 = r.p2 ∧
     get_lat latBack (set_lon lonCast r x) = get_lat latBack r ∧
     get_dist (set_lon lonCast r x) = get_dist r) ∧
    ((set_dist r x).p2 = x ∧
     (set_dist r x).p0 = r.p0 ∧ (set_dist r x).p1 = r.p1 ∧
     get_lat latBack (set_dist r x) = get_lat latBack r ∧
     get_lon lonBack (set_dist r x) = get_lon lonBack r) :=
  ⟨⟨rfl, rfl, rfl, rfl, rfl⟩, ⟨rfl, rfl, rfl, rfl, rfl⟩, ⟨rfl, rfl, rfl, rfl, rfl⟩⟩

/-- C5: an unregistered source name makes `convert` fail with the
frame-not-found error naming that source — including when the destination is
also unknown, since the source is resolved first — and an unregistered
destination name (with a valid source) fails naming the destination. -/
theorem convert_unknown_name {α : Type} [Mul α] [Add α] (B : Builders α)
    (src dest : String) (v : α × α) :
    (findVertex src = none →
      convert B src dest v = .error (.notFound ("Not found " ++ src))) ∧
    (∀ s, findVertex src = some s → findVertex dest = none →
      convert B src dest v = .error (.notFound ("Not found " ++ dest))) := by
  constructor
  · intro h
    simp [convert, h]
  · intro s hs hd
    simp [convert, hs, hd]

/-- Witness for C5 at the unregistered name "Lunar". -/
theorem convert_unknown_name_witness :
    convert intBuilders "Lunar" "Horizon" ((1 : ℤ), 2) =
      .error (.notFound "Not found Lunar") :=
  (convert_unknown_name intBuilders "Lunar" "Horizon" (1, 2)).1 (by decide)

/-- C4: converting from a registered frame to itself returns the input vector
unchanged — the backward walk stops immediately at the source, the path is the
single vertex, and no matrix is applied. -/
theorem convert_same_frame {α : Type} [Mul α] [Add α] (B : Builders α)
    (nm : String) (s : Nat) (h : findVertex nm = some s) (v : α × α) :
    convert B nm nm v = .ok v := by
  have hs : s < 5 := findVertex_lt h
  interval_cases s <;> (unfold convert; rw [h]) <;> rfl

/-- Witness for C4 at the frame "Galactic". -/
theorem convert_same_frame_witness :
    convert intBuilders "Galactic" "Galactic" ((7 : ℤ), 9) = .ok (7, 9) :=
  convert_same_frame intBuilders "Galactic" 4 (by decide) (7, 9)

/-- C1: for every valid source and destination name and every input vector,
`convert` returns exactly the fold that takes each consecutive pair `(a, b)`
of the discovered path in source-to-destination order, looks up the matrix
registered for the directed edge `(a, b)` — every such pair is a registered
edge (`isPathB`), so the `getD Mat2.one` default is never used and no inverse
of the opposite edge's matrix is involved — and left-multiplies the current
vector by it, starting from the input vector. -/
theorem convert_composes_along_path {α : Type} [Mul α] [Add α] [Zero α] [One α]
    (B : Builders α) (src dest : String) (s d : Nat)
    (hs : findVertex src = some s) (hd : findVertex dest = some d) (v : α × α) :
    ∃ p, discoveredPath s d = some p ∧ isPathB p = true ∧
      convert B src dest v =
        .ok ((pathPairs p).foldl
          (fun w ab => ((edgeMatrix B ab.1 ab.2).getD Mat2.one).mulVec w) v) := by
  have h5s : s < 5 := findVertex_lt hs
  have h5d : d < 5 := findVertex_lt hd
  interval_cases s <;> interval_cases d <;>
    exact ⟨_, rfl, by decide, by unfold convert; rw [hs, hd]; rfl⟩

/-- Witness for C1 on the three-edge route Horizon → Ecliptic. -/
theorem convert_composes_along_path_witness :
    ∃ p, discoveredPath 0 3 = some p ∧ isPathB p = true ∧
      convert intBuilders "Horizon" "Ecliptic" ((1 : ℤ), 2) =
        .ok ((pathPairs p).foldl
          (fun w ab => ((edgeMatrix intBuilders ab.1 ab.2).getD Mat2.one).mulVec w)
          (1, 2)) :=
  convert_composes_along_path intBuilders "Horizon" "Ecliptic" 0 3
    (by decide) (by decide) (1, 2)

/-- C2: for every pair of registered source and destination names, the path
discovered by `convert` runs from the source vertex to the destination vertex
along registered edges, a walk of its edge count exists, and no walk in the
catalog graph — in particular no path — connects the two vertices in fewer
edges, so its edge count is the minimum over all paths; and for
Horizon → Ecliptic the discovered path is exactly
Horizon, Equatorial_HA_Dec, Equatorial_RA_Dec, Ecliptic (3 edges). -/
theorem convert_path_is_shortest (src dest : String) (s d : Nat)
    (hs : findVertex src = some s) (hd : findVertex dest = some d) :
    ∃ p, discoveredPath s d = some p ∧ isPathB p = true ∧
      p.head? = some s ∧ p.getLast? = some d ∧
      reachInB (p.length - 1) s d = true ∧
      (List.range (p.length - 1)).all (fun m => ! reachInB m s d) = true ∧
      (src = "Horizon" ∧ dest = "Ecliptic" → p = [0, 1, 2, 3]) := by
  have h5s : s < 5 := findVertex_lt hs
  have h5d : d < 5 := findVertex_lt hd
  interval_cases s <;> interval_cases d <;>
    refine ⟨_, rfl, by decide, by decide, by decide, by decide, by decide,
      fun hc => ?_⟩ <;>
    obtain ⟨h1, h2⟩ := hc <;> subst h1 <;> subst h2 <;>
    first
      | rfl
      | exact absurd hs (by decide)
      | exact absurd hd (by decide)

/-- Witness for C2 at the multi-hop pair Horizon → Ecliptic. -/
theorem convert_path_is_shortest_witness :
    ∃ p, discoveredPath 0 3 = some p ∧ isPathB p = true ∧
      p.head? = some 0 ∧ p.getLast? = some 3 ∧
      reachInB (p.length - 1) 0 3 = true ∧
      (List.range (p.length - 1)).all (fun m => ! reachInB m 0 3) = true ∧
      ("Horizon" = "Horizon" ∧ "Ecliptic" = "Ecliptic" → p = [0, 1, 2, 3]) :=
  convert_path_is_shortest "Horizon" "Ecliptic" 0 3 (by decide) (by decide)

/-- C3 (amended): with the fixed catalog the BFS reaches every vertex from
every source, so the backward path-reconstruction walk terminates for every
valid source/destination pair; the walk itself contains no detection of
"predecessor of X is X but X is not the source" — on a predecessor state in
which the destination was never reached (its slot still holds the
initialisation value 0), the loop makes no progress and never terminates,
reporting nothing. -/
theorem walk_terminates_on_catalog :
    (∀ s, s < 5 → ∀ d, d < 5 → (buildStorePath (bfsPred s) s 16 d).isSome = true) ∧
    (∀ fuel, buildStorePath (List.replicate 5 0) 2 fuel 0 = none) := by
  constructor
  · decide
  · intro fuel
    induction fuel with
    | zero => rfl
    | succ n ih =>
        show (buildStorePath (List.replicate 5 0) 2 n 0).map (fun r => 0 :: r) = none
        rw [ih]
        rfl

/-- Witness for C3 on the pair Horizon → Ecliptic. -/
theorem walk_terminates_on_catalog_witness :
    (buildStorePath (bfsPred 0) 0 16 3).isSome = true :=
  walk_terminates_on_catalog.1 0 (by decide) 3 (by decide)

/-- C3 counterexample: on the predecessor state of an unreached destination
(source vertex 2, destination vertex 0, every predecessor slot still holding
the initialisation value 0) the backward walk does not terminate — vertex 0's
recorded predecessor is 0 itself although 0 is not the source, the loop step
`p = predecessors[p]` leaves `p` fixed, and the 16-step instrumentation is
exhausted without any frame-unreachable error being produced. -/
theorem walk_stuck_counterexample :
    buildStorePath (List.replicate 5 0) 2 16 0 = none ∧
    (List.replicate 5 0).getD 0 0 = 0 ∧ (0 : Nat) ≠ 2 := by
  decide

/-- C6 (amended): every consecutive pair of every discovered path is a
registered edge (the BFS reaches vertices only through registered tree
edges), so the composition loop's unchecked edge lookup never fails on a
discovered path; the code contains no catalog-consistency check and a missing
edge would be an unchecked read of an invalid edge descriptor, not a reported
error. -/
theorem discovered_path_edges_registered :
    ∀ s, s < 5 → ∀ d, d < 5 → (discoveredPath s d).map isPathB = some true := by
  decide

/-- Witness for C6 (amended) on the pair Galactic → Horizon. -/
theorem discovered_path_edges_registered_witness :
    (discoveredPath 4 0).map isPathB = some true :=
  discovered_path_edges_registered 4 (by decide) 0 (by decide)

/-- C6 counterexample: on the vertex sequence [Horizon, Ecliptic], whose
consecutive pair (0, 3) has no registered edge, the composition loop reaches
the unchecked edge lookup and yields the invalid-read outcome — no
catalog-inconsistency error value is produced by the code. -/
theorem missing_edge_read_counterexample :
    composeAlongPath intBuilders [0, 3] ((1 : ℤ), 1) = none ∧
    hasEdge 0 3 = false := by
  decide

/-- C7: if the matrix registered for Horizon → Equatorial_HA_Dec and the one
for Equatorial_HA_Dec → Horizon are mutual inverses (the C++ registers the
same `ha_dec_horizon(phi)` matrix in both directions, so this says that
matrix squares to the identity), then converting Horizon →
Equatorial_HA_Dec and feeding the result into Equatorial_HA_Dec → Horizon
returns the original input vector exactly — in this exact-arithmetic model
equality is on the nose, hence in particular within any positive tolerance
such as 1e-9. -/
theorem roundtrip_horizon_ha_dec {α : Type} [CommRing α] (B : Builders α)
    (hM : B.ha_dec_horizon.mul B.ha_dec_horizon = Mat2.one)
    (v w : α × α)
    (h1 : convert B "Horizon" "Equatorial_HA_Dec" v = .ok w) :
    convert B "Equatorial_HA_Dec" "Horizon" w = .ok v := by
  have e1 : convert B "Horizon" "Equatorial_HA_Dec" v =
      .ok (B.ha_dec_horizon.mulVec v) := rfl
  rw [e1] at h1
  have hw : w = B.ha_dec_horizon.mulVec v := (Except.ok.inj h1).symm
  subst hw
  have e2 : convert B "Equatorial_HA_Dec" "Horizon" (B.ha_dec_horizon.mulVec v) =
      .ok (B.ha_dec_horizon.mulVec (B.ha_dec_horizon.mulVec v)) := rfl
  rw [e2, ← Mat2.mul_mulVec, hM, Mat2.one_mulVec]

/-- Witness for C7 with the swap involution as the Horizon edge matrix. -/
theorem roundtrip_horizon_ha_dec_witness :
    convert intBuilders "Equatorial_HA_Dec" "Horizon" ((5 : ℤ), 3) = .ok (3, 5) :=
  roundtrip_horizon_ha_dec intBuilders (by decide) (3, 5) (5, 3) rfl

/-- C9: the catalog graph is strongly connected — every ordered pair of the
five vertices is joined by a directed walk of fewer than 5 edges — so the
backward walk always finds a path and a frame-unreachable situation cannot
arise with this catalog; the undirected skeleton consists of exactly the four
unordered edges 0-1, 1-2, 2-3, 2-4 (4 = 5 - 1 edges and connected: a tree),
and for every ordered pair the walk of the discovered path's length is the
unique one of that length, so the discovered route does not depend on BFS
tie-breaking order. -/
theorem catalog_strongly_connected_tree :
    (∀ s, s < 5 → ∀ d, d < 5 →
      (List.range 5).any (fun n => reachInB n s d) = true) ∧
    (∀ s, s < 5 → ∀ d, d < 5 →
      (buildStorePath (bfsPred s) s 16 d).isSome = true) ∧
    (edgeEntries.map (fun e => (min e.src e.dst, max e.src e.dst))).dedup =
      [(0, 1), (1, 2), (2, 3), (2, 4)] ∧
    (∀ s, s < 5 → ∀ d, d < 5 →
      (discoveredPath s d).map (fun p => countWalks (p.length - 1) s d) = some 1) := by
  exact ⟨by decide, by decide, by decide, by decide⟩

/-- Witness for C9 at the pair Ecliptic → Galactic. -/
theorem catalog_strongly_connected_tree_witness :
    (List.range 5).any (fun n => reachInB n 3 4) = true ∧
    (discoveredPath 3 4).map (fun p => countWalks (p.length - 1) 3 4) = some 1 :=
  ⟨catalog_strongly_connected_tree.1 3 (by decide) 4 (by decide),
   catalog_strongly_connected_tree.2.2.2 3 (by decide) 4 (by decide)⟩
